import Mathlib

/-!
Shallow embedding of the FlapPy-bird core simulation (src/bird.py,
src/pipe.py, src/flap.py).  Python floats are modelled as exact rationals;
pygame `Rect` coordinates are integers, and assignment of a float to a
rect field truncates toward zero as C int conversion does.  The per-pixel
mask collision test (`pg.sprite.collide_mask`) depends on image assets and
is modelled as an oracle parameter.  Asset-derived dimensions (scaled
sprite sizes) are configuration parameters.
-/

namespace Flappy

/-- Truncation toward zero, as Python `int()` and pygame rect assignment. -/
def pyInt (q : ℚ) : ℤ := if q < 0 then -(⌊-q⌋) else ⌊q⌋

/-- pygame `Rect`: integer position and size. -/
structure Rect where
  x : ℤ
  y : ℤ
  w : ℤ
  h : ℤ
deriving DecidableEq

def Rect.left (r : Rect) : ℤ := r.x

def Rect.right (r : Rect) : ℤ := r.x + r.w

def Rect.top (r : Rect) : ℤ := r.y

def Rect.bottom (r : Rect) : ℤ := r.y + r.h

/-- `rect.centery = v` sets `y` so that the vertical center is `v`. -/
def Rect.setCentery (r : Rect) (v : ℤ) : Rect := { r with y := v - r.h / 2 }

/--
Static configuration of one game session: the window size from
`Game.__init__` and the asset-derived sprite dimensions (the repository's
images are external to the code; their scaled sizes enter as parameters).
-/
structure Config where
  screenW : ℤ
  screenH : ℤ
  /-- height of the scaled floor image (`base` asset). -/
  groundH : ℤ
  /-- bird rect size after `scale_image(img, 0.118, game.rect.w, 'w')`. -/
  birdW : ℤ
  birdH : ℤ
  /-- pipe image size after `scale_image(image, 0.625, game.rect.h, 'h')`. -/
  pipeImgW : ℤ
  pipeImgH : ℤ
deriving DecidableEq

/-- `floor.rect.top`: the floor image sits at the bottom of the screen. -/
def Config.floorTop (c : Config) : ℤ := c.screenH - c.groundH

/-- `play_area = Rect(0, 0, rect.w, rect.h - floor.rect.h)`. -/
def Config.playH (c : Config) : ℤ := c.screenH - c.groundH

/-- `self.accel = 5.85 * self.game.play_area.w` (play area width = screen width). -/
def Config.accel (c : Config) : ℚ := 5.85 * (c.screenW : ℚ)

/-- `self.flap_vel_y = -1.4 * self.game.play_area.w`. -/
def Config.flapVel (c : Config) : ℚ := -1.4 * (c.screenW : ℚ)

/-- `self.max_vel_y = 1.91 * self.game.play_area.w`. -/
def Config.maxVel (c : Config) : ℚ := 1.91 * (c.screenW : ℚ)

/-- `self.pipe_gap_height = int(self.game.rect.h * .22)`. -/
def Config.pipeGapHeight (c : Config) : ℤ := pyInt ((c.screenH : ℚ) * 0.22)

/-- `self.pipe_spacing = int(self.game.rect.w * .42)`. -/
def Config.pipeSpacing (c : Config) : ℤ := pyInt ((c.screenW : ℚ) * 0.42)

/-- `self.pipe_vel_x = int(self.game.rect.w * -.33)`. -/
def Config.pipeVelX (c : Config) : ℤ := pyInt ((c.screenW : ℚ) * (-0.33))

/-- `self.rect.x = 0.10 * self.game.play_area.w` (truncated by rect assignment). -/
def Config.birdRectX (c : Config) : ℤ := pyInt (0.10 * (c.screenW : ℚ))

/-- A paired-pipe obstacle (`Pipe` in src/pipe.py). -/
structure Pipe where
  point_value : ℤ
  counted : Bool
  rect : Rect
  /-- float x position (`self.x`); `rect.x` is its truncation. -/
  x : ℚ
  y : ℚ
  is_moving : Bool
  vel_x : ℤ
  /-- membership in the `PipeSpawner` sprite group; `kill()` clears it. -/
  in_group : Bool
deriving DecidableEq

/--
`Pipe.__init__(spawner, gap_bottom_y, point_value=1)`: the rect from
`_create_rect` (pipe image doubled in height plus the gap), positioned with
`rect.bottom = gap_bottom_y + pipe_image.h` and `rect.x = game.rect.right`.
The spawner immediately `add`s the new pipe to its sprite group.
-/
def mkPipe (c : Config) (gapBottomY : ℤ) : Pipe :=
  let h : ℤ := 2 * c.pipeImgH + c.pipeGapHeight
  let rect : Rect :=
    { x := c.screenW, y := gapBottomY + c.pipeImgH - h, w := c.pipeImgW, h := h }
  { point_value := 1
    counted := false
    rect := rect
    x := (rect.x : ℚ)
    y := (rect.y : ℚ)
    is_moving := false
    vel_x := c.pipeVelX
    in_group := true }

/--
`Pipe.update(dt)`: move left while `is_moving`, then `kill()` (leave the
sprite group) once the right edge has crossed the screen's left edge.
-/
def Pipe.update (dt : ℚ) (p : Pipe) : Pipe :=
  let p :=
    if p.is_moving then
      let x' := p.x + (p.vel_x : ℚ) * dt
      { p with x := x', rect := { p.rect with x := pyInt x' } }
    else p
  if p.rect.right < 0 then { p with in_group := false } else p

/-- `PipeSpawner` state: the two deques; group membership lives on the pipes. -/
structure Spawner where
  waiting : List Pipe
  moving : List Pipe
deriving DecidableEq

/-- `_spawn_new_pipe` with the drawn `gap_bottom_y` passed explicitly. -/
def Spawner.spawnNewPipe (c : Config) (g : ℤ) (s : Spawner) : Spawner :=
  { s with waiting := s.waiting ++ [mkPipe c g] }

/--
`while len(self.waiting_pipes) < self.waiting_pipes.maxlen: self._spawn_new_pipe()`
with `maxlen = 2`; the random draws are supplied by the `gaps` list (the
loop stops early only if the list runs out, which the theorems rule out).
-/
def Spawner.topUp (c : Config) : List ℤ → Spawner → Spawner
  | [], s => s
  | g :: gs, s =>
    if s.waiting.length < 2 then Spawner.topUp c gs (s.spawnNewPipe c g) else s

/--
`_move_next_pipe`: pop the front of the waiting deque, append it to the
moving deque and set `is_moving`.  (With an empty waiting deque Python
would raise `IndexError`; that state is unreachable after the top-up.)
-/
def Spawner.moveNextPipe (s : Spawner) : Spawner :=
  match s.waiting with
  | [] => s
  | p :: rest => { waiting := rest, moving := s.moving ++ [{ p with is_moving := true }] }

/--
`PipeSpawner.update(dt)`: top up the waiting deque, activate a pipe if none
is moving, activate another when the last moving pipe is far enough from
the next waiting pipe, then `super().update(dt)` runs `Pipe.update` on
every sprite still in the group.
-/
def Spawner.update (c : Config) (gaps : List ℤ) (dt : ℚ) (s : Spawner) : Spawner :=
  let s1 := Spawner.topUp c gaps s
  let s2 := if s1.moving.length = 0 then s1.moveNextPipe else s1
  let s3 :=
    match s2.moving.getLast?, s2.waiting.head? with
    | some lp, some np =>
      if |lp.rect.right - np.rect.left| > c.pipeSpacing then s2.moveNextPipe else s2
    | _, _ => s2
  { waiting := s3.waiting.map (fun p => if p.in_group then Pipe.update dt p else p)
    moving := s3.moving.map (fun p => if p.in_group then Pipe.update dt p else p) }

/-- `PipeSpawner.reset`: `empty()` the group and clear both deques. -/
def Spawner.reset (_s : Spawner) : Spawner := { waiting := [], moving := [] }

/--
Python `random.randrange(start, stop)`: raises `ValueError` on an empty
range, otherwise returns a value uniform in `[start, stop)`; the draw is
determined here by the seed-like argument `k`.
-/
def randrange (start stop : ℤ) (k : ℕ) : Except String ℤ :=
  if stop ≤ start then Except.error "empty range for randrange()"
  else Except.ok (start + (k : ℤ) % (stop - start))

/--
`_spawn_new_pipe` with the actual random draw:
`gap_bottom_y = random.randrange(start=pipe_gap_height, stop=floor.rect.top)`.
-/
def Spawner.spawnNewPipeR (c : Config) (k : ℕ) : Except String Pipe :=
  (randrange c.pipeGapHeight c.floorTop k).map (fun g => mkPipe c g)

/-- The attributes copied by `BirdStateMemory` (the cosmetic `image` aside). -/
structure BirdMem where
  is_alive : Bool
  on_ground : Bool
  score : ℤ
  y : ℚ
  vel_y : ℚ
  angle : ℚ
  max_angle : ℚ
  rect : Rect
deriving DecidableEq

/-- The bird's mutable state (src/bird.py `Bird`). -/
structure Bird where
  is_alive : Bool
  on_ground : Bool
  score : ℤ
  y : ℚ
  vel_y : ℚ
  angle : ℚ
  max_angle : ℚ
  rect : Rect
  /-- `self.state_memory = BirdStateMemory(self)`. -/
  memory : BirdMem
deriving DecidableEq

/-- `BirdStateMemory.__init__`: copy the saved attributes. -/
def Bird.snapshot (b : Bird) : BirdMem :=
  { is_alive := b.is_alive, on_ground := b.on_ground, score := b.score, y := b.y
    vel_y := b.vel_y, angle := b.angle, max_angle := b.max_angle, rect := b.rect }

/-- `die(): self.angle = -90; self.is_alive = not self.is_alive`. -/
def Bird.die (b : Bird) : Bird := { b with angle := -90, is_alive := !b.is_alive }

/-- `flap_up`: only while alive, set `vel_y` to the flap impulse. -/
def Bird.flap_up (c : Config) (b : Bird) : Bird :=
  if b.is_alive then { b with vel_y := c.flapVel } else b

/-- `increment_score(amount=1)`: only while alive. -/
def Bird.increment_score (b : Bird) (amount : ℤ) : Bird :=
  if b.is_alive then { b with score := b.score + amount } else b

/-- `BirdStateMemory.reset_bird`: write the saved attributes back. -/
def BirdMem.reset_bird (m : BirdMem) (b : Bird) : Bird :=
  { b with is_alive := m.is_alive, on_ground := m.on_ground, score := m.score
           y := m.y, vel_y := m.vel_y, angle := m.angle, max_angle := m.max_angle
           rect := m.rect }

/--
`revive`: when dead, restore the saved attributes and take a fresh
snapshot; when still alive, print a warning and change nothing.
-/
def Bird.revive (b : Bird) : Bird :=
  if !b.is_alive then
    let b' := b.memory.reset_bird b
    { b' with memory := b'.snapshot }
  else b

/-- Whole-game state: `in_game` flag, the bird, the pipe spawner. -/
structure Game where
  in_game : Bool
  bird : Bird
  pipes : Spawner
deriving DecidableEq

/-- `Game.toggle_menu` (src/flap.py). -/
def Game.toggle_menu (g : Game) : Game :=
  if g.in_game then { g with in_game := false }
  else if g.bird.is_alive then { g with in_game := true }
  else { g with bird := g.bird.revive, pipes := g.pipes.reset }

/--
`GameAwareness.check_floor_collision`: compare the bird's bottom with the
floor's top; on contact set `on_ground`, kill a live bird, and leave the
game via `toggle_menu` when in-game; otherwise clear `on_ground`.
-/
def checkFloorCollision (c : Config) (g : Game) : Game :=
  if g.bird.rect.bottom > c.floorTop then
    let b1 := { g.bird with on_ground := true }
    let b2 := if b1.is_alive then b1.die else b1
    let g1 := { g with bird := b2 }
    if g1.in_game then g1.toggle_menu else g1
  else { g with bird := { g.bird with on_ground := false } }

/--
`GameAwareness.check_pipe_collision`: for each moving pipe still on screen
(`game.rect.left < pipe.rect.right`, screen left edge is 0) and close
enough (`pipe.rect.left - bird.rect.right < 5`), the per-pixel mask test
(the `oracle` here) decides the hit; on a hit the bird dies dramatically.
-/
def checkPipeCollision (oracle : Bird → Pipe → Bool) (b : Bird) : List Pipe → Bird
  | [] => b
  | p :: ps =>
    let b' :=
      if 0 < p.rect.right ∧ p.rect.left - b.rect.right < 5 ∧ oracle b p then
        Bird.die { b with max_angle := 90 }
      else b
    checkPipeCollision oracle b' ps

/--
`GameAwareness.update_score`: walk the moving pipes; each pipe not yet
counted whose right edge is strictly left of the bird's left edge scores a
point and is marked counted.
-/
def updateScore (b : Bird) : List Pipe → Bird × List Pipe
  | [] => (b, [])
  | p :: ps =>
    if p.counted = false ∧ b.rect.left > p.rect.right then
      let b1 := b.increment_score 1
      let r := updateScore b1 ps
      (r.1, { p with counted := true } :: r.2)
    else
      let r := updateScore b ps
      (r.1, p :: r.2)

/--
`Bird._update_image` (angle part): while in-game, derive the angle from
the velocity and clamp it to the maximal visual angle.
-/
def updateImage (inGame : Bool) (b : Bird) : Bird :=
  if inGame then
    let a := b.vel_y * (-0.11)
    let a := if |a| > b.max_angle then (if a > 0 then b.max_angle else -b.max_angle) else a
    { b with angle := a }
  else b

/-- `Bird.update` lines 67-69: `if in_game and self.vel_y < self.max_vel_y`. -/
def velPhase (c : Config) (inGame : Bool) (dt : ℚ) (b : Bird) : Bird :=
  if inGame ∧ b.vel_y < c.maxVel then { b with vel_y := b.vel_y + c.accel * dt } else b

/-- `Bird.update` lines 71-74: move while in-game and above the ground. -/
def posPhase (inGame : Bool) (dt : ℚ) (b : Bird) : Bird :=
  if inGame ∧ b.on_ground = false then
    let y' := b.y + b.vel_y * dt
    { b with y := y', rect := b.rect.setCentery (pyInt y') }
  else b

/-- `Bird.update` lines 76-77: floor check only while not yet grounded. -/
def floorBlock (c : Config) (g : Game) : Game :=
  if g.bird.on_ground = false then checkFloorCollision c g else g

/-- `Bird.update` lines 79-81: pipe collision and scoring only while alive. -/
def collisionBlock (oracle : Bird → Pipe → Bool) (g : Game) : Game :=
  if g.bird.is_alive then
    let b1 := checkPipeCollision oracle g.bird g.pipes.moving
    let r := updateScore b1 g.pipes.moving
    { g with bird := r.1, pipes := { g.pipes with moving := r.2 } }
  else g

/-- `Bird.update` lines 83-85: render the next frame while airborne. -/
def imageBlock (g : Game) : Game :=
  if g.bird.on_ground = false then { g with bird := updateImage g.in_game g.bird } else g

/-- `Bird.update(dt)` including the `GameAwareness` checks it invokes. -/
def Bird.update (c : Config) (oracle : Bird → Pipe → Bool) (g : Game) (dt : ℚ) : Game :=
  let inGame := g.in_game
  imageBlock (collisionBlock oracle (floorBlock c
    { g with bird := posPhase inGame dt (velPhase c inGame dt g.bird) }))

/--
`Game._update(dt)` (simulation part): the bird updates every frame; the
pipes only while in-game.  Menu/HUD updates are rendering-only.
-/
def Game.update (c : Config) (oracle : Bird → Pipe → Bool) (gaps : List ℤ) (dt : ℚ)
    (g : Game) : Game :=
  let g1 := Bird.update c oracle g dt
  if g1.in_game then { g1 with pipes := Spawner.update c gaps dt g1.pipes } else g1

/--
`Bird.__init__`: alive, off the ground, score 0, positioned at the play
area's vertical center, zero velocity, snapshot taken.
-/
def mkBird (c : Config) : Bird :=
  let y0 : ℤ := c.playH / 2
  let rect : Rect := { x := c.birdRectX, y := y0, w := c.birdW, h := c.birdH }
  let m : BirdMem :=
    { is_alive := true, on_ground := false, score := 0, y := (y0 : ℚ), vel_y := 0
      angle := 0, max_angle := 45, rect := rect }
  { is_alive := true, on_ground := false, score := 0, y := (y0 : ℚ), vel_y := 0
    angle := 0, max_angle := 45, rect := rect, memory := m }

/--
`Game.__init__`: menu state, empty spawner, fresh bird; `Bird.__init__`
ends with `self.update(dt=0)` (no pipes exist yet, so the mask oracle is
never consulted).
-/
def mkGame (c : Config) : Game :=
  let g : Game := { in_game := false, bird := mkBird c, pipes := { waiting := [], moving := [] } }
  Bird.update c (fun _ _ => false) g 0

/--
The session configuration of `flap.py`: `h = 1000`, `w = int(288/512 * 1000) = 562`,
with the repository's assets scaled per the code: floor `base` 336×112
scaled to 562×187; `bluebird` frames 34×24 scaled to 66×46; `pipe` images
52×320 scaled to height 625, width 101.
-/
def cfg0 : Config :=
  { screenW := 562, screenH := 1000, groundH := 187
    birdW := 66, birdH := 46, pipeImgW := 101, pipeImgH := 625 }

/--
A pipe that went off screen and was `kill()`ed (removed from the sprite
group) several ticks ago: reachable after roughly five seconds of play,
since active pipes march left at `pipe_vel_x = -185` px/s from `x = 562`
and `kill` does not touch the `moving_pipes` deque.  Its geometry is that
of `mkPipe cfg0 545` advanced to `x = -300`.
-/
def zombiePipe : Pipe :=
  { point_value := 1, counted := true, rect := { x := -300, y := -300, w := 101, h := 1470 }
    x := -300, y := -300, is_moving := true, vel_x := -185, in_group := false }

/-- A mid-session spawner state still carrying `zombiePipe` in its moving deque. -/
def spawnerZ : Spawner :=
  { waiting := [mkPipe cfg0 300, mkPipe cfg0 400], moving := [zombiePipe] }

/-- The menu state right after the bird has died (e.g. by a pipe hit). -/
def gameDead : Game := { mkGame cfg0 with bird := Bird.die (mkGame cfg0).bird }

/--
A mid-fall bird one tick away from hitting the floor: alive, airborne at
`y = 700` (rect bottom 723, floor top 813), falling at 100 px/s.  Its
snapshot is the start-of-session one.
-/
def birdT : Bird :=
  { is_alive := true, on_ground := false, score := 0, y := 700, vel_y := 100, angle := 0
    max_angle := 45, rect := { x := 56, y := 677, w := 66, h := 46 }
    memory := (mkBird cfg0).memory }

/--
An active pipe (gap bottom 800, so its gap spans y 580..800 and the
falling bird passes through transparent pixels) whose right edge (61) is
still at or past the bird's left edge (56) and which is not yet counted.
-/
def pipeT : Pipe :=
  { point_value := 1, counted := false, rect := { x := -40, y := -45, w := 101, h := 1470 }
    x := -40, y := -45, is_moving := true, vel_x := -185, in_group := true }

/-- The in-game state at the start of the two-tick missed-score scenario. -/
def gameT : Game :=
  { in_game := true, bird := birdT
    pipes := { waiting := [mkPipe cfg0 300, mkPipe cfg0 350], moving := [pipeT] } }

/-- One frame of the session: a full `Game._update` at 10 fps with no mask hits. -/
def tick (g : Game) : Game := Game.update cfg0 (fun _ _ => false) [] (1/10) g

/--
An older culled pipe frozen where `kill()` caught it, at `x = -102`
(right edge -1): it stopped receiving updates the tick it left the group.
-/
def zombieA : Pipe :=
  { point_value := 1, counted := true, rect := { x := -102, y := -45, w := 101, h := 1470 }
    x := -102, y := -45, is_moving := true, vel_x := -185, in_group := false }

/--
The pipe activated after `zombieA`, still in the group at `x = -101.9`
(truncated rect x -101, right edge 0, so not yet culled), about to be
carried past the frozen `zombieA` by its next movement step.
-/
def pipeB : Pipe :=
  { point_value := 1, counted := true, rect := { x := -101, y := -145, w := 101, h := 1470 }
    x := -1019/10, y := -145, is_moving := true, vel_x := -185, in_group := true }

/-- A mid-session spawner whose moving deque holds the two far-left pipes. -/
def spawnerOrd : Spawner :=
  { waiting := [mkPipe cfg0 300, mkPipe cfg0 350], moving := [zombieA, pipeB] }

/-- The pipes still in the spawner's sprite group (not yet `kill()`ed). -/
def inGroupPipes (l : List Pipe) : List Pipe := l.filter (fun p => p.in_group)

/-- Front-to-back order of a pipe list agrees with left-to-right screen order. -/
def xOrdered (l : List Pipe) : Prop := List.Pairwise (fun a b => a.x ≤ b.x) l

/--
Spawner state invariant: waiting pipes sit unreleased at the right screen
edge with the session's pipe geometry; moving pipes have been released, all
share the session's horizontal velocity and stay left of the right edge;
the moving pipes still in the sprite group are ordered left-to-right.
-/
def SpawnerInv (c : Config) (s : Spawner) : Prop :=
  (∀ p ∈ s.waiting, p.x = (c.screenW : ℚ) ∧ p.rect.x = c.screenW ∧ p.rect.w = c.pipeImgW ∧
      p.vel_x = c.pipeVelX ∧ p.in_group = true ∧ p.is_moving = false) ∧
  (∀ p ∈ s.moving, p.x ≤ (c.screenW : ℚ) ∧ p.vel_x = c.pipeVelX ∧ p.is_moving = true) ∧
  xOrdered (inGroupPipes s.moving)

/-! ## Projection lemmas for the per-tick phases -/

theorem die_proj (b : Bird) :
    (Bird.die b).vel_y = b.vel_y ∧ (Bird.die b).score = b.score ∧
    (Bird.die b).on_ground = b.on_ground ∧ (Bird.die b).y = b.y ∧
    (Bird.die b).rect = b.rect ∧ (Bird.die b).memory = b.memory := by
  simp [Bird.die]

theorem checkPipeCollision_proj (o : Bird → Pipe → Bool) (ps : List Pipe) (b : Bird) :
    (checkPipeCollision o b ps).vel_y = b.vel_y ∧
    (checkPipeCollision o b ps).score = b.score ∧
    (checkPipeCollision o b ps).on_ground = b.on_ground ∧
    (checkPipeCollision o b ps).y = b.y ∧
    (checkPipeCollision o b ps).rect = b.rect ∧
    (checkPipeCollision o b ps).memory = b.memory := by
  induction ps generalizing b with
  | nil => simp [checkPipeCollision]
  | cons p ps ih =>
    simp only [checkPipeCollision]
    split
    · simpa [Bird.die] using ih (Bird.die { b with max_angle := 90 })
    · exact ih b

theorem increment_score_proj (b : Bird) (n : ℤ) :
    (b.increment_score n).vel_y = b.vel_y ∧ (b.increment_score n).is_alive = b.is_alive ∧
    (b.increment_score n).on_ground = b.on_ground ∧ (b.increment_score n).y = b.y ∧
    (b.increment_score n).rect = b.rect ∧ (b.increment_score n).memory = b.memory := by
  simp only [Bird.increment_score]
  split <;> simp

theorem updateScore_fst_proj (ps : List Pipe) (b : Bird) :
    (updateScore b ps).1.vel_y = b.vel_y ∧
    (updateScore b ps).1.is_alive = b.is_alive ∧
    (updateScore b ps).1.on_ground = b.on_ground ∧
    (updateScore b ps).1.y = b.y ∧
    (updateScore b ps).1.rect = b.rect ∧
    (updateScore b ps).1.memory = b.memory := by
  induction ps generalizing b with
  | nil => simp [updateScore]
  | cons p ps ih =>
    simp only [updateScore]
    split
    · have h := ih (b.increment_score 1)
      have h2 := increment_score_proj b 1
      exact ⟨h.1.trans h2.1, h.2.1.trans h2.2.1, h.2.2.1.trans h2.2.2.1,
        h.2.2.2.1.trans h2.2.2.2.1, h.2.2.2.2.1.trans h2.2.2.2.2.1,
        h.2.2.2.2.2.trans h2.2.2.2.2.2⟩
    · exact ih b

theorem updateScore_score_le (ps : List Pipe) (b : Bird) :
    b.score ≤ (updateScore b ps).1.score := by
  induction ps generalizing b with
  | nil => simp [updateScore]
  | cons p ps ih =>
    simp only [updateScore]
    split
    · refine le_trans ?_ (ih (b.increment_score 1))
      simp only [Bird.increment_score]
      split <;> simp
    · exact ih b

theorem updateImage_proj (ig : Bool) (b : Bird) :
    (updateImage ig b).vel_y = b.vel_y ∧ (updateImage ig b).is_alive = b.is_alive ∧
    (updateImage ig b).on_ground = b.on_ground ∧ (updateImage ig b).score = b.score ∧
    (updateImage ig b).y = b.y ∧ (updateImage ig b).rect = b.rect ∧
    (updateImage ig b).memory = b.memory := by
  simp only [updateImage]
  split <;> simp

theorem checkFloorCollision_proj (c : Config) (g : Game) :
    (checkFloorCollision c g).bird.vel_y = g.bird.vel_y ∧
    (checkFloorCollision c g).bird.score = g.bird.score ∧
    (checkFloorCollision c g).bird.y = g.bird.y ∧
    (checkFloorCollision c g).bird.rect = g.bird.rect ∧
    (checkFloorCollision c g).bird.memory = g.bird.memory ∧
    (checkFloorCollision c g).pipes = g.pipes := by
  simp only [checkFloorCollision]
  split
  · split <;> split <;> simp_all [Game.toggle_menu, Bird.die]
  · simp

theorem floorBlock_proj (c : Config) (g : Game) :
    (floorBlock c g).bird.vel_y = g.bird.vel_y ∧
    (floorBlock c g).bird.score = g.bird.score ∧
    (floorBlock c g).bird.y = g.bird.y ∧
    (floorBlock c g).bird.rect = g.bird.rect ∧
    (floorBlock c g).bird.memory = g.bird.memory ∧
    (floorBlock c g).pipes = g.pipes := by
  simp only [floorBlock]
  split
  · exact checkFloorCollision_proj c g
  · simp

theorem collisionBlock_proj (o : Bird → Pipe → Bool) (g : Game) :
    (collisionBlock o g).bird.vel_y = g.bird.vel_y ∧
    (collisionBlock o g).bird.on_ground = g.bird.on_ground ∧
    (collisionBlock o g).bird.y = g.bird.y ∧
    (collisionBlock o g).bird.rect = g.bird.rect ∧
    (collisionBlock o g).bird.memory = g.bird.memory ∧
    (collisionBlock o g).in_game = g.in_game ∧
    (collisionBlock o g).pipes.waiting = g.pipes.waiting := by
  simp only [collisionBlock]
  split
  · have h1 := checkPipeCollision_proj o g.pipes.moving g.bird
    have h2 := updateScore_fst_proj g.pipes.moving (checkPipeCollision o g.bird g.pipes.moving)
    exact ⟨h2.1.trans h1.1, h2.2.2.1.trans h1.2.2.1, h2.2.2.2.1.trans h1.2.2.2.1,
      h2.2.2.2.2.1.trans h1.2.2.2.2.1, h2.2.2.2.2.2.trans h1.2.2.2.2.2, rfl, rfl⟩
  · simp

theorem imageBlock_proj (g : Game) :
    (imageBlock g).bird.vel_y = g.bird.vel_y ∧
    (imageBlock g).bird.is_alive = g.bird.is_alive ∧
    (imageBlock g).bird.on_ground = g.bird.on_ground ∧
    (imageBlock g).bird.score = g.bird.score ∧
    (imageBlock g).bird.y = g.bird.y ∧
    (imageBlock g).bird.rect = g.bird.rect ∧
    (imageBlock g).bird.memory = g.bird.memory ∧
    (imageBlock g).in_game = g.in_game ∧
    (imageBlock g).pipes = g.pipes := by
  simp only [imageBlock]
  split
  · have h := updateImage_proj g.in_game g.bird
    exact ⟨h.1, h.2.1, h.2.2.1, h.2.2.2.1, h.2.2.2.2.1, h.2.2.2.2.2.1, h.2.2.2.2.2.2, rfl, rfl⟩
  · simp

theorem posPhase_vel (ig : Bool) (dt : ℚ) (b : Bird) : (posPhase ig dt b).vel_y = b.vel_y := by
  simp only [posPhase]; split <;> simp

/-- The velocity phase of `Bird.update` is the only one that touches `vel_y`. -/
theorem birdUpdate_vel (c : Config) (o : Bird → Pipe → Bool) (g : Game) (dt : ℚ) :
    (Bird.update c o g dt).bird.vel_y =
      if g.in_game ∧ g.bird.vel_y < c.maxVel then g.bird.vel_y + c.accel * dt
      else g.bird.vel_y := by
  simp only [Bird.update]
  rw [(imageBlock_proj _).1, (collisionBlock_proj _ _).1, (floorBlock_proj _ _).1]
  rw [show ({ g with bird := posPhase g.in_game dt (velPhase c g.in_game dt g.bird) } : Game).bird
      = posPhase g.in_game dt (velPhase c g.in_game dt g.bird) from rfl]
  rw [posPhase_vel]
  simp only [velPhase]
  split <;> simp_all

/-! ## C1: the falling-speed cap -/

/--
C1 as stated is false: `Bird.update` applies gravity whenever
`vel_y < max_vel_y` but never clamps the result with `min`, so one update
can overshoot `max_fall_speed`.  Concretely: from the freshly started
session (menu toggled once, bird airborne, `vel_y = 0`) a single update
with `dt = 0.33 ≥ 0` yields `vel_y = 3287.7 * 0.33 = 1084.941`, which
exceeds `max_vel_y = 1073.42`.
-/
theorem C1_no_clamp_counterexample :
    (Game.toggle_menu (mkGame cfg0)).in_game = true ∧
    (Game.toggle_menu (mkGame cfg0)).bird.on_ground = false ∧
    (0 : ℚ) ≤ 33/100 ∧
    (Bird.update cfg0 (fun _ _ => false) (Game.toggle_menu (mkGame cfg0))
      (33/100)).bird.vel_y > cfg0.maxVel := by
  refine ⟨?_, ?_, by norm_num, ?_⟩ <;>
    norm_num [Bird.update, velPhase, posPhase, floorBlock, collisionBlock, imageBlock,
      checkFloorCollision, checkPipeCollision, updateScore, updateImage, Game.toggle_menu,
      mkGame, mkBird, cfg0, Config.maxVel, Config.accel, Config.flapVel, Config.floorTop,
      Config.playH, Config.birdRectX, pyInt, Rect.bottom, Rect.setCentery, Rect.left,
      Rect.right]

/--
C1 amended: gravity is applied only while `vel_y < max_vel_y` and is not
clamped, so after one update `vel_y` is at most the larger of its previous
value and `max_vel_y + gravity_accel * dt`; once `vel_y ≥ max_vel_y`, no
further gravity is applied.
-/
theorem C1_velocity_overshoot_bound (c : Config) (o : Bird → Pipe → Bool) (g : Game) (dt : ℚ) :
    (Bird.update c o g dt).bird.vel_y ≤ max g.bird.vel_y (c.maxVel + c.accel * dt) := by
  rw [birdUpdate_vel]
  split
  · rename_i h
    exact le_max_of_le_right (by linarith [h.2])
  · exact le_max_left _ _

/-! ## C2: double death -/

/--
C2 as stated is false: `die()` has no idempotence guard — it executes
`self.is_alive = not self.is_alive`, a toggle.  Applying `die()` twice to
the fresh (live) bird leaves it alive, not dead.
-/
theorem C2_double_die_counterexample :
    (Bird.die (Bird.die (mkBird cfg0))).is_alive = true := by
  simp [Bird.die, mkBird]

/--
C2 amended: `die()` never raises; it forces the death angle and toggles
`is_alive`, so on a live avatar it sets `is_alive` false, but on an
already-dead avatar it flips `is_alive` back to true (a double `die()`
restores the original liveness).  In the code `die()` is only ever invoked
on a live avatar, its callers being guarded by `is_alive`.
-/
theorem C2_die_toggles (b : Bird) :
    (Bird.die b).is_alive = !b.is_alive ∧ (Bird.die b).angle = -90 ∧
    (Bird.die (Bird.die b)).is_alive = b.is_alive := by
  simp [Bird.die]

/-! ## C3: off-screen obstacle culling -/

theorem pipeUpdate_in_group (dt : ℚ) (p : Pipe) :
    (Pipe.update dt p).rect.right < 0 → (Pipe.update dt p).in_group = false := by
  simp only [Pipe.update]
  split <;> split <;> simp_all

/--
C3 as stated is false: `Pipe.update` only calls `kill()` on an off-screen
pipe, which removes it from the sprite (rendering) group, but nothing ever
removes it from the `moving_pipes` deque — the "active queue" that both
collision and scoring iterate.  Concretely, the long-culled `zombiePipe`
(right edge at -199 < 0) is still in `moving_pipes` after a full spawner
tick.
-/
theorem C3_zombie_pipe_counterexample :
    zombiePipe ∈ spawnerZ.moving ∧ zombiePipe.rect.right < 0 ∧
    zombiePipe ∈ (Spawner.update cfg0 [] (1/35) spawnerZ).moving := by
  refine ⟨by simp [spawnerZ], by norm_num [zombiePipe, Rect.right], ?_⟩
  norm_num [Spawner.update, Spawner.topUp, Spawner.moveNextPipe, Pipe.update, spawnerZ,
    zombiePipe, mkPipe, cfg0, Config.pipeSpacing, Config.pipeVelX, Config.pipeGapHeight,
    pyInt, Rect.right, Rect.left]

/--
C3 amended: within one spawner tick, any moving pipe whose right edge has
crossed the screen's left boundary is no longer in the sprite group (it is
`kill()`ed and hence no longer rendered or advanced), but it stays in the
`moving_pipes` deque and continues to be iterated by collision and scoring
until the spawner is reset.
-/
theorem C3_offscreen_killed (c : Config) (gaps : List ℤ) (dt : ℚ) (s : Spawner) :
    ∀ p ∈ (Spawner.update c gaps dt s).moving, p.rect.right < 0 → p.in_group = false := by
  intro p hp hneg
  simp only [Spawner.update] at hp
  rw [List.mem_map] at hp
  obtain ⟨q, _, rfl⟩ := hp
  by_cases hg : q.in_group
  · simp only [hg, if_true] at hneg ⊢
    exact pipeUpdate_in_group dt q hneg
  · simp_all

theorem C3_offscreen_killed_witness :
    zombiePipe ∈ (Spawner.update cfg0 [] (1/35) spawnerZ).moving ∧
    zombiePipe.rect.right < 0 ∧ zombiePipe.in_group = false := by
  have hmem : zombiePipe ∈ (Spawner.update cfg0 [] (1/35) spawnerZ).moving := by
    norm_num [Spawner.update, Spawner.topUp, Spawner.moveNextPipe, Pipe.update, spawnerZ,
      zombiePipe, mkPipe, cfg0, Config.pipeSpacing, Config.pipeVelX, Config.pipeGapHeight,
      pyInt, Rect.right, Rect.left]
  have hneg : zombiePipe.rect.right < 0 := by norm_num [zombiePipe, Rect.right]
  exact ⟨hmem, hneg, C3_offscreen_killed cfg0 [] (1/35) spawnerZ zombiePipe hmem hneg⟩

/-! ## C4: the flap impulse -/

/--
C4 confirmed: `flap_up` sets `vel_y` to exactly `flap_vel_y` while alive
(an override, not an addition) and changes nothing else; on a dead bird it
changes nothing at all (every field is preserved).
-/
theorem C4_flap_exact (c : Config) (b : Bird) :
    (Bird.flap_up c b).vel_y = (if b.is_alive then c.flapVel else b.vel_y) ∧
    (Bird.flap_up c b).is_alive = b.is_alive ∧
    (Bird.flap_up c b).on_ground = b.on_ground ∧
    (Bird.flap_up c b).score = b.score ∧
    (Bird.flap_up c b).y = b.y ∧
    (Bird.flap_up c b).angle = b.angle ∧
    (Bird.flap_up c b).max_angle = b.max_angle ∧
    (Bird.flap_up c b).rect = b.rect ∧
    (Bird.flap_up c b).memory = b.memory := by
  simp only [Bird.flap_up]
  split <;> simp_all

/-! ## C5: the counted flag -/

theorem updateScore_counted (ps : List Pipe) (b : Bird) :
    (updateScore b ps).2.map (fun p => p.counted) =
      ps.map (fun p => p.counted || decide (b.rect.left > p.rect.right)) := by
  induction ps generalizing b with
  | nil => simp [updateScore]
  | cons p ps ih =>
    simp only [updateScore]
    split
    · rename_i h
      have ht := ih (b.increment_score 1)
      rw [(increment_score_proj b 1).2.2.2.2.1] at ht
      simp [List.map_cons, ht, h.1, h.2]
    · rename_i h
      have ht := ih b
      simp only [List.map_cons, ht]
      cases hcnt : p.counted <;> simp_all

/--
C5 confirmed: one pass of `update_score` turns a pipe's `counted` flag
into `counted || (bird.rect.left > pipe.rect.right)` — so the flag never
goes back from true to false, and it switches false→true only in a tick
where the bird's leading (left) edge is strictly past the pipe's trailing
(right) edge; no other operation touches the flag (`Pipe.update` preserves
it and a freshly spawned pipe starts uncounted).
-/
theorem C5_counted_transition (b : Bird) (ps : List Pipe) :
    ((updateScore b ps).2.map (fun p => p.counted) =
      ps.map (fun p => p.counted || decide (b.rect.left > p.rect.right))) ∧
    (∀ (dt : ℚ) (p : Pipe), (Pipe.update dt p).counted = p.counted) ∧
    (∀ (c : Config) (gb : ℤ), (mkPipe c gb).counted = false) := by
  refine ⟨updateScore_counted ps b, ?_, ?_⟩
  · intro dt p
    simp only [Pipe.update]
    split <;> split <;> simp
  · intro c gb
    simp [mkPipe]

/-! ## C9: gap placement and invalid configuration -/

/--
C9 confirmed: `_spawn_new_pipe` draws `gap_bottom_y` with
`random.randrange(start=pipe_gap_height, stop=floor.rect.top)`, which
raises `ValueError` (fails fast) exactly when the range is empty — i.e.
when `gap_height ≥ screen_height - ground_height` — and otherwise returns
a pipe whose `gap_bottom_y` lies in `[gap_height, screen_height - ground_height)`.
-/
theorem C9_gap_spawn (c : Config) (k : ℕ) :
    (c.floorTop ≤ c.pipeGapHeight →
      Spawner.spawnNewPipeR c k = Except.error "empty range for randrange()") ∧
    (c.pipeGapHeight < c.floorTop →
      ∃ gb : ℤ, Spawner.spawnNewPipeR c k = Except.ok (mkPipe c gb) ∧
        c.pipeGapHeight ≤ gb ∧ gb < c.screenH - c.groundH) := by
  constructor
  · intro h
    simp [Spawner.spawnNewPipeR, randrange, h, Except.map]
  · intro h
    refine ⟨c.pipeGapHeight + (k : ℤ) % (c.floorTop - c.pipeGapHeight), ?_, ?_, ?_⟩
    · simp only [Spawner.spawnNewPipeR, randrange]
      rw [if_neg (not_le.mpr h)]
      rfl
    · have := Int.emod_nonneg (k : ℤ) (by omega : c.floorTop - c.pipeGapHeight ≠ 0)
      omega
    · have := Int.emod_lt_of_pos (k : ℤ) (by omega : 0 < c.floorTop - c.pipeGapHeight)
      simp only [Config.floorTop] at *
      omega

theorem C9_gap_spawn_witness :
    (Spawner.spawnNewPipeR { cfg0 with groundH := 790 } 7 =
      Except.error "empty range for randrange()") ∧
    (∃ gb : ℤ, Spawner.spawnNewPipeR cfg0 7 = Except.ok (mkPipe cfg0 gb) ∧
      cfg0.pipeGapHeight ≤ gb ∧ gb < cfg0.screenH - cfg0.groundH) := by
  constructor
  · exact (C9_gap_spawn { cfg0 with groundH := 790 } 7).1
      (by norm_num [Config.floorTop, Config.pipeGapHeight, cfg0, pyInt])
  · exact (C9_gap_spawn cfg0 7).2
      (by norm_num [Config.floorTop, Config.pipeGapHeight, cfg0, pyInt])

/-! ## C7: the session toggle -/

/--
C7 confirmed: `toggle_menu` always leaves `IN_GAME` for the menu; from the
menu it enters the game only with a live bird; from the menu with a dead
bird it stays in the menu and performs the full session reset — the bird
is revived from its start-of-session snapshot (alive, score 0) and both
pipe deques (and the sprite group) are cleared.
-/
theorem C7_toggle_behavior (g : Game) :
    (g.in_game = true → Game.toggle_menu g = { g with in_game := false }) ∧
    (g.in_game = false → g.bird.is_alive = true →
      Game.toggle_menu g = { g with in_game := true }) ∧
    (g.in_game = false → g.bird.is_alive = false →
      g.bird.memory.is_alive = true → g.bird.memory.score = 0 →
      (Game.toggle_menu g).in_game = false ∧
      (Game.toggle_menu g).bird.is_alive = true ∧
      (Game.toggle_menu g).bird.score = 0 ∧
      (Game.toggle_menu g).pipes.waiting = [] ∧
      (Game.toggle_menu g).pipes.moving = []) := by
  refine ⟨fun h => ?_, fun h ha => ?_, fun h ha hm hs => ?_⟩
  · simp [Game.toggle_menu, h]
  · simp [Game.toggle_menu, h, ha]
  · simp [Game.toggle_menu, h, ha, Bird.revive, BirdMem.reset_bird, Bird.snapshot,
      Spawner.reset, hm, hs]

theorem C7_toggle_behavior_witness :
    (Game.toggle_menu (Game.toggle_menu (mkGame cfg0)) =
      { Game.toggle_menu (mkGame cfg0) with in_game := false }) ∧
    (Game.toggle_menu (mkGame cfg0) = { mkGame cfg0 with in_game := true }) ∧
    ((Game.toggle_menu gameDead).in_game = false ∧
      (Game.toggle_menu gameDead).bird.is_alive = true ∧
      (Game.toggle_menu gameDead).bird.score = 0 ∧
      (Game.toggle_menu gameDead).pipes.waiting = [] ∧
      (Game.toggle_menu gameDead).pipes.moving = []) := by
  refine ⟨(C7_toggle_behavior _).1 ?_, (C7_toggle_behavior _).2.1 ?_ ?_,
    (C7_toggle_behavior _).2.2 ?_ ?_ ?_ ?_⟩ <;>
    norm_num [Game.toggle_menu, mkGame, mkBird, gameDead, Bird.die, Bird.update, velPhase,
      posPhase, floorBlock, collisionBlock, imageBlock, checkFloorCollision,
      checkPipeCollision, updateScore, updateImage, cfg0, Config.maxVel, Config.accel,
      Config.floorTop, Config.playH, Config.birdRectX, pyInt, Rect.bottom, Rect.setCentery]

/-! ## C10: ground contact implies death -/

theorem velPhase_proj (c : Config) (ig : Bool) (dt : ℚ) (b : Bird) :
    (velPhase c ig dt b).is_alive = b.is_alive ∧ (velPhase c ig dt b).on_ground = b.on_ground ∧
    (velPhase c ig dt b).score = b.score ∧ (velPhase c ig dt b).memory = b.memory := by
  simp only [velPhase]
  split <;> simp

theorem posPhase_proj (ig : Bool) (dt : ℚ) (b : Bird) :
    (posPhase ig dt b).is_alive = b.is_alive ∧ (posPhase ig dt b).on_ground = b.on_ground ∧
    (posPhase ig dt b).score = b.score ∧ (posPhase ig dt b).memory = b.memory := by
  simp only [posPhase]
  split <;> simp

/-- After the floor check, a grounded bird is always a dead bird. -/
theorem checkFloor_flags (c : Config) (g : Game) :
    (checkFloorCollision c g).bird.on_ground = true →
    (checkFloorCollision c g).bird.is_alive = false := by
  simp only [checkFloorCollision]
  split
  · split <;> split <;> simp_all [Game.toggle_menu, Bird.die]
  · simp

theorem floorBlock_flags (c : Config) (g : Game)
    (hin : g.bird.on_ground = true → g.bird.is_alive = false) :
    (floorBlock c g).bird.on_ground = true → (floorBlock c g).bird.is_alive = false := by
  simp only [floorBlock]
  split
  · exact checkFloor_flags c g
  · exact hin

theorem collisionBlock_flags (o : Bird → Pipe → Bool) (g : Game)
    (hin : g.bird.on_ground = true → g.bird.is_alive = false) :
    (collisionBlock o g).bird.on_ground = true → (collisionBlock o g).bird.is_alive = false := by
  intro hog
  have hpre : g.bird.on_ground = true := by
    rw [(collisionBlock_proj o g).2.1] at hog
    exact hog
  have hdead := hin hpre
  have : (collisionBlock o g) = g := by
    simp only [collisionBlock, hdead]
    simp
  rw [this]
  exact hdead

theorem imageBlock_flags (g : Game)
    (hin : g.bird.on_ground = true → g.bird.is_alive = false) :
    (imageBlock g).bird.on_ground = true → (imageBlock g).bird.is_alive = false := by
  intro hog
  rw [(imageBlock_proj g).2.1]
  rw [(imageBlock_proj g).2.2.1] at hog
  exact hin hog

theorem gameUpdate_bird (c : Config) (o : Bird → Pipe → Bool) (gaps : List ℤ) (dt : ℚ)
    (g : Game) : (Game.update c o gaps dt g).bird = (Bird.update c o g dt).bird := by
  simp only [Game.update]
  split <;> rfl

theorem birdUpdate_memory (c : Config) (o : Bird → Pipe → Bool) (g : Game) (dt : ℚ) :
    (Bird.update c o g dt).bird.memory = g.bird.memory := by
  simp only [Bird.update]
  rw [(imageBlock_proj _).2.2.2.2.2.2.1, (collisionBlock_proj _ _).2.2.2.2.1,
    (floorBlock_proj _ _).2.2.2.2.1]
  rw [show ({ g with bird := posPhase g.in_game dt (velPhase c g.in_game dt g.bird) } : Game).bird
      = posPhase g.in_game dt (velPhase c g.in_game dt g.bird) from rfl]
  rw [(posPhase_proj _ _ _).2.2.2, (velPhase_proj _ _ _ _).2.2.2]

/--
C10 confirmed: the invariant "on_ground implies not alive" is preserved by
every full tick (ground contact kills a live bird in the tick that grounds
it, and nothing revives a bird without also lifting it off the ground);
the fresh session starts airborne and alive, the tick never touches the
start-of-session snapshot, and the session reset (menu toggle with a dead
bird) restores `on_ground = false` and `is_alive = true` together.
-/
theorem C10_ground_death_invariant (c : Config) (o : Bird → Pipe → Bool) (gaps : List ℤ)
    (dt : ℚ) (g : Game)
    (hflag : g.bird.on_ground = true → g.bird.is_alive = false) :
    ((Game.update c o gaps dt g).bird.on_ground = true →
      (Game.update c o gaps dt g).bird.is_alive = false) ∧
    ((Game.update c o gaps dt g).bird.memory = g.bird.memory) ∧
    ((mkGame cfg0).bird.on_ground = false ∧ (mkGame cfg0).bird.is_alive = true) ∧
    (g.in_game = false → g.bird.is_alive = false → g.bird.memory.is_alive = true →
      g.bird.memory.on_ground = false →
      (Game.toggle_menu g).bird.on_ground = false ∧ (Game.toggle_menu g).bird.is_alive = true) := by
  refine ⟨?_, ?_, ?_, ?_⟩
  · rw [gameUpdate_bird]
    simp only [Bird.update]
    refine imageBlock_flags _ (collisionBlock_flags _ _ (floorBlock_flags _ _ ?_))
    intro hog
    rw [show ({ g with bird := posPhase g.in_game dt (velPhase c g.in_game dt g.bird) } : Game).bird
        = posPhase g.in_game dt (velPhase c g.in_game dt g.bird) from rfl] at hog ⊢
    rw [(posPhase_proj _ _ _).1, (velPhase_proj _ _ _ _).1]
    rw [(posPhase_proj _ _ _).2.1, (velPhase_proj _ _ _ _).2.1] at hog
    exact hflag hog
  · rw [gameUpdate_bird]
    exact birdUpdate_memory c o g dt
  · constructor <;>
      norm_num [mkGame, mkBird, Bird.update, velPhase, posPhase, floorBlock, collisionBlock,
        imageBlock, checkFloorCollision, checkPipeCollision, updateScore, updateImage, cfg0,
        Config.maxVel, Config.accel, Config.floorTop, Config.playH, Config.birdRectX, pyInt,
        Rect.bottom, Rect.setCentery]
  · intro h ha hm hmo
    simp [Game.toggle_menu, h, ha, Bird.revive, BirdMem.reset_bird, Bird.snapshot, hm, hmo]

/-! ## C6: score accounting -/

theorem updateScore_score_alive (ps : List Pipe) (b : Bird) (h : b.is_alive = true) :
    (updateScore b ps).1.score =
      b.score +
        ((ps.countP (fun p => !p.counted && decide (b.rect.left > p.rect.right)) : ℕ) : ℤ) := by
  induction ps generalizing b with
  | nil => simp [updateScore]
  | cons p ps ih =>
    simp only [updateScore]
    split
    · rename_i hc
      have hb1a : (b.increment_score 1).is_alive = true := by
        rw [(increment_score_proj b 1).2.1]; exact h
      have ht := ih (b.increment_score 1) hb1a
      rw [(increment_score_proj b 1).2.2.2.2.1] at ht
      have hs : (b.increment_score 1).score = b.score + 1 := by
        simp [Bird.increment_score, h]
      rw [List.countP_cons]
      simp only [ht, hs, hc.1, hc.2]
      push_cast
      ring_nf
      simp [hc.2]
      ring
    · rename_i hc
      have ht := ih b h
      have hp : (!p.counted && decide (b.rect.left > p.rect.right)) = false := by
        cases hcnt : p.counted <;> simp_all
      rw [List.countP_cons]
      simp [ht, hp]

theorem collisionBlock_score_le (o : Bird → Pipe → Bool) (g : Game) :
    g.bird.score ≤ (collisionBlock o g).bird.score := by
  simp only [collisionBlock]
  split
  · have h1 := (checkPipeCollision_proj o g.pipes.moving g.bird).2.1
    have h2 := updateScore_score_le g.pipes.moving (checkPipeCollision o g.bird g.pipes.moving)
    calc g.bird.score = (checkPipeCollision o g.bird g.pipes.moving).score := h1.symm
      _ ≤ _ := h2
  · exact le_refl _

theorem birdUpdate_score_le (c : Config) (o : Bird → Pipe → Bool) (g : Game) (dt : ℚ) :
    g.bird.score ≤ (Bird.update c o g dt).bird.score := by
  simp only [Bird.update]
  rw [(imageBlock_proj _).2.2.2.1]
  refine le_trans ?_ (collisionBlock_score_le o _)
  rw [(floorBlock_proj _ _).2.1]
  rw [show ({ g with bird := posPhase g.in_game dt (velPhase c g.in_game dt g.bird) } : Game).bird
      = posPhase g.in_game dt (velPhase c g.in_game dt g.bird) from rfl]
  rw [(posPhase_proj _ _ _).2.2.1, (velPhase_proj _ _ _ _).2.2.1]

/--
C6 as stated is false: an obstacle the avatar passes in the tick in which
the avatar dies (or later) is never scored.  In this reachable two-tick
scenario the active pipe's right edge (61) is still ahead of the bird's
left edge (56), the pipes advance past the bird at the end of tick 1
(right edge 43 < 56, bird alive, pipe uncounted), and in tick 2 the bird
hits the floor and dies before the scoring phase runs, the session drops
to the menu (pipes frozen), and the only continuation — the menu toggle —
clears the deques, discarding the passed pipe with score still 0.
-/
theorem C6_missed_score_counterexample :
    ((tick gameT).bird.is_alive = true) ∧
    (((tick gameT).pipes.moving.map (fun p => (p.counted, p.rect.right))).head? =
      some (false, 43)) ∧
    ((tick gameT).bird.rect.left = 56) ∧
    ((tick (tick gameT)).bird.is_alive = false) ∧
    ((tick (tick gameT)).in_game = false) ∧
    ((tick (tick gameT)).bird.score = 0) ∧
    (((tick (tick gameT)).pipes.moving.map (fun p => (p.counted, p.rect.right))).head? =
      some (false, 43)) ∧
    ((Game.toggle_menu (tick (tick gameT))).pipes.moving = []) := by
  norm_num [tick, Game.update, Game.toggle_menu, Bird.update, velPhase, posPhase, floorBlock,
    collisionBlock, imageBlock, checkFloorCollision, checkPipeCollision, updateScore,
    updateImage, Bird.die, Bird.increment_score, Bird.revive, BirdMem.reset_bird,
    Bird.snapshot, Spawner.update, Spawner.topUp, Spawner.moveNextPipe, Spawner.reset,
    Pipe.update, gameT, birdT, pipeT, mkPipe, mkBird, cfg0, Config.maxVel, Config.accel,
    Config.floorTop, Config.playH, Config.birdRectX, Config.pipeSpacing, Config.pipeVelX,
    Config.pipeGapHeight, pyInt, Rect.bottom, Rect.setCentery, Rect.left, Rect.right]

/--
C6 amended: while the avatar is alive at the scoring check, one pass of
`update_score` adds exactly 1 to the score for each newly counted pipe
(each pipe's `point_value` is the fixed 1, though the code increments by
the literal 1 rather than reading `point_value`); obstacles passed in the
tick of death or later are never scored; and the score never decreases
across ticks (a full `Game.update` can only keep or raise it).
-/
theorem C6_score_accounting :
    (∀ (b : Bird) (ps : List Pipe), b.is_alive = true →
      (updateScore b ps).1.score =
        b.score +
          ((ps.countP (fun p => !p.counted && decide (b.rect.left > p.rect.right)) : ℕ) : ℤ)) ∧
    (∀ (c : Config) (gb : ℤ), (mkPipe c gb).point_value = 1) ∧
    (∀ (c : Config) (o : Bird → Pipe → Bool) (gaps : List ℤ) (dt : ℚ) (g : Game),
      g.bird.score ≤ (Game.update c o gaps dt g).bird.score) := by
  refine ⟨fun b ps h => updateScore_score_alive ps b h, fun c gb => by simp [mkPipe],
    fun c o gaps dt g => ?_⟩
  rw [gameUpdate_bird]
  exact birdUpdate_score_le c o g dt

theorem C6_score_accounting_witness :
    ((updateScore birdT
        [{ pipeT with rect := { x := -60, y := -45, w := 101, h := 1470 }, x := -60 }]).1.score
      = 1) ∧
    ((mkPipe cfg0 300).point_value = 1) ∧
    ((mkGame cfg0).bird.score ≤
      (Game.update cfg0 (fun _ _ => false) [] (1/35) (mkGame cfg0)).bird.score) := by
  have h1 := C6_score_accounting.1 birdT
    [{ pipeT with rect := { x := -60, y := -45, w := 101, h := 1470 }, x := -60 }]
    (by norm_num [birdT])
  refine ⟨?_, C6_score_accounting.2.1 cfg0 300,
    C6_score_accounting.2.2 cfg0 (fun _ _ => false) [] (1/35) (mkGame cfg0)⟩
  rw [h1]
  norm_num [birdT, pipeT, Rect.left, Rect.right, List.countP_cons]

theorem C10_ground_death_invariant_witness :
    ((Game.update cfg0 (fun _ _ => false) [] (1/35) gameDead).bird.on_ground = true →
      (Game.update cfg0 (fun _ _ => false) [] (1/35) gameDead).bird.is_alive = false) ∧
    ((Game.toggle_menu gameDead).bird.on_ground = false ∧
      (Game.toggle_menu gameDead).bird.is_alive = true) := by
  have hflag : gameDead.bird.on_ground = true → gameDead.bird.is_alive = false := by
    norm_num [gameDead, mkGame, mkBird, Bird.die, Bird.update, velPhase, posPhase, floorBlock,
      collisionBlock, imageBlock, checkFloorCollision, checkPipeCollision, updateScore,
      updateImage, cfg0, Config.maxVel, Config.accel, Config.floorTop, Config.playH,
      Config.birdRectX, pyInt, Rect.bottom, Rect.setCentery]
  have h := C10_ground_death_invariant cfg0 (fun _ _ => false) [] (1/35) gameDead hflag
  refine ⟨h.1, h.2.2.2 ?_ ?_ ?_ ?_⟩ <;>
    norm_num [gameDead, mkGame, mkBird, Bird.die, Bird.update, velPhase, posPhase, floorBlock,
      collisionBlock, imageBlock, checkFloorCollision, checkPipeCollision, updateScore,
      updateImage, cfg0, Config.maxVel, Config.accel, Config.floorTop, Config.playH,
      Config.birdRectX, pyInt, Rect.bottom, Rect.setCentery]

/-! ## C8: spawner scheduling invariants -/

theorem topUp_moving (c : Config) (gaps : List ℤ) (s : Spawner) :
    (Spawner.topUp c gaps s).moving = s.moving := by
  induction gaps generalizing s with
  | nil => rfl
  | cons g gs ih =>
    simp only [Spawner.topUp]
    split
    · rw [ih]
      simp [Spawner.spawnNewPipe]
    · rfl

theorem topUp_waiting_mem (c : Config) (P : Pipe → Prop) (hmk : ∀ gb : ℤ, P (mkPipe c gb))
    (gaps : List ℤ) (s : Spawner) (h : ∀ p ∈ s.waiting, P p) :
    ∀ p ∈ (Spawner.topUp c gaps s).waiting, P p := by
  induction gaps generalizing s with
  | nil => exact h
  | cons g gs ih =>
    simp only [Spawner.topUp]
    split
    · apply ih
      intro p hp
      simp only [Spawner.spawnNewPipe, List.mem_append, List.mem_singleton] at hp
      rcases hp with hp | rfl
      · exact h p hp
      · exact hmk g
    · exact h

theorem topUp_length (c : Config) (gaps : List ℤ) (s : Spawner)
    (h2 : s.waiting.length ≤ 2) (hg : 2 ≤ s.waiting.length + gaps.length) :
    (Spawner.topUp c gaps s).waiting.length = 2 := by
  induction gaps generalizing s with
  | nil =>
    simp only [Spawner.topUp]
    simp only [List.length_nil] at hg
    omega
  | cons g gs ih =>
    simp only [Spawner.topUp]
    split
    · rename_i hlt
      have hlen : (s.spawnNewPipe c g).waiting.length = s.waiting.length + 1 := by
        simp [Spawner.spawnNewPipe]
      refine ih _ ?_ ?_
      · rw [hlen]; omega
      · rw [hlen]; simp only [List.length_cons] at hg; omega
    · rename_i hlt
      simp only [not_lt] at hlt
      omega

theorem pipeUpdate_x_moving (dt : ℚ) (p : Pipe) (h : p.is_moving = true) :
    (Pipe.update dt p).x = p.x + (p.vel_x : ℚ) * dt ∧
    (Pipe.update dt p).vel_x = p.vel_x ∧
    (Pipe.update dt p).is_moving = p.is_moving := by
  simp only [Pipe.update, h, if_true]
  split <;> simp

theorem pipeUpdate_waiting_id (dt : ℚ) (p : Pipe) (h1 : p.is_moving = false)
    (h2 : ¬ p.rect.right < 0) : Pipe.update dt p = p := by
  simp [Pipe.update, h1, h2]

theorem filter_sub {α : Type} (p q : α → Bool) (h : ∀ a, p a = true → q a = true)
    (l : List α) : (l.filter q).filter p = l.filter p := by
  rw [List.filter_filter]
  induction l with
  | nil => rfl
  | cons a t ih =>
    by_cases hp : p a = true
    · simp [List.filter_cons, hp, h a hp, ih]
    · have hp' : p a = false := by simpa using hp
      simp [List.filter_cons, hp', ih]

theorem moveNext_inv (c : Config) (s : Spawner) (hinv : SpawnerInv c s) :
    SpawnerInv c s.moveNextPipe := by
  obtain ⟨hw, hm, hord⟩ := hinv
  simp only [Spawner.moveNextPipe]
  split
  · exact ⟨hw, hm, hord⟩
  · rename_i p rest hwl
    have hp := hw p (by rw [hwl]; exact List.mem_cons_self p rest)
    refine ⟨?_, ?_, ?_⟩
    · intro q hq
      exact hw q (by rw [hwl]; exact List.mem_cons_of_mem p hq)
    · intro q hq
      rw [List.mem_append] at hq
      rcases hq with hq | hq
      · exact hm q hq
      · simp only [List.mem_singleton] at hq
        subst hq
        exact ⟨le_of_eq hp.1, hp.2.2.2.1, rfl⟩
    · simp only [xOrdered, inGroupPipes, List.filter_append] at hord ⊢
      rw [List.pairwise_append]
      refine ⟨hord, ?_, ?_⟩
      · simp [hp.2.2.2.2.1]
      · intro a ha b hb
        rw [List.mem_filter] at ha hb
        have hax := (hm a ha.1).1
        have hb' : b = { p with is_moving := true } := by simpa using hb.1
        rw [hb']
        simpa [hp.1] using hax

theorem advance_inv (c : Config) (dt : ℚ) (hdt : 0 ≤ dt) (hv : c.pipeVelX ≤ 0)
    (hwid : 0 ≤ c.pipeImgW) (hscr : 0 ≤ c.screenW) (s : Spawner) (hinv : SpawnerInv c s) :
    SpawnerInv c
      { waiting := s.waiting.map (fun p => if p.in_group then Pipe.update dt p else p)
        moving := s.moving.map (fun p => if p.in_group then Pipe.update dt p else p) } := by
  obtain ⟨hw, hm, hord⟩ := hinv
  have hvq : (c.pipeVelX : ℚ) ≤ 0 := by exact_mod_cast hv
  refine ⟨?_, ?_, ?_⟩
  · -- waiting pipes are untouched by the group update
    intro q hq
    rw [List.mem_map] at hq
    obtain ⟨p, hp, rfl⟩ := hq
    have hpp := hw p hp
    have hid : Pipe.update dt p = p := by
      refine pipeUpdate_waiting_id dt p hpp.2.2.2.2.2 ?_
      rw [Rect.right, hpp.2.1, hpp.2.2.1]
      omega
    rw [hpp.2.2.2.2.1, if_pos rfl, hid]
    exact hpp
  · -- moving pipes only move left, keep their velocity and stay released
    intro q hq
    rw [List.mem_map] at hq
    obtain ⟨p, hp, rfl⟩ := hq
    have hpp := hm p hp
    by_cases hg : p.in_group = true
    · rw [if_pos hg]
      have hx := pipeUpdate_x_moving dt p hpp.2.2
      refine ⟨?_, hx.2.1.trans hpp.2.1, hx.2.2.trans hpp.2.2⟩
      rw [hx.1, hpp.2.1]
      have : (c.pipeVelX : ℚ) * dt ≤ 0 := mul_nonpos_iff.mpr (Or.inr ⟨hvq, hdt⟩)
      linarith [hpp.1]
    · rw [if_neg hg]
      exact hpp
  · -- left-to-right order among still-grouped pipes survives the uniform shift
    simp only [xOrdered, inGroupPipes] at hord ⊢
    rw [List.filter_map, List.pairwise_map]
    have hkey : ∀ p : Pipe,
        (if p.in_group then Pipe.update dt p else p).in_group = true →
        p.in_group = true := by
      intro p hfp
      by_cases hg : p.in_group = true
      · exact hg
      · rw [if_neg hg] at hfp
        exact absurd hfp hg
    show List.Pairwise
      (fun a b =>
        (if a.in_group then Pipe.update dt a else a).x ≤
          (if b.in_group then Pipe.update dt b else b).x)
      (List.filter (fun p : Pipe => (if p.in_group then Pipe.update dt p else p).in_group)
        s.moving)
    rw [← filter_sub (fun p : Pipe => (if p.in_group then Pipe.update dt p else p).in_group)
      (fun p : Pipe => p.in_group) hkey s.moving]
    refine List.Pairwise.filter _ ?_
    refine hord.imp_of_mem ?_
    intro a b ha hb hab
    rw [List.mem_filter] at ha hb
    have hxa := pipeUpdate_x_moving dt a (hm a ha.1).2.2
    have hxb := pipeUpdate_x_moving dt b (hm b hb.1).2.2
    show (if a.in_group then Pipe.update dt a else a).x ≤
      (if b.in_group then Pipe.update dt b else b).x
    rw [if_pos ha.2, if_pos hb.2, hxa.1, hxb.1, (hm a ha.1).2.1, (hm b hb.1).2.1]
    linarith

theorem spawnerUpdate_inv (c : Config) (gaps : List ℤ) (dt : ℚ) (s : Spawner)
    (hinv : SpawnerInv c s) (hdt : 0 ≤ dt) (hv : c.pipeVelX ≤ 0)
    (hwid : 0 ≤ c.pipeImgW) (hscr : 0 ≤ c.screenW) :
    SpawnerInv c (Spawner.update c gaps dt s) := by
  have h1 : SpawnerInv c (Spawner.topUp c gaps s) := by
    obtain ⟨hw, hm, hord⟩ := hinv
    refine ⟨?_, ?_, ?_⟩
    · refine topUp_waiting_mem c _ ?_ gaps s hw
      intro gb
      simp [mkPipe]
    · rw [topUp_moving]; exact hm
    · unfold xOrdered inGroupPipes
      rw [topUp_moving]
      exact hord
  set s1 := Spawner.topUp c gaps s with hs1
  have h2 : SpawnerInv c (if s1.moving.length = 0 then s1.moveNextPipe else s1) := by
    split
    · exact moveNext_inv c _ h1
    · exact h1
  set s2 := (if s1.moving.length = 0 then s1.moveNextPipe else s1) with hs2
  have h3 : SpawnerInv c (match s2.moving.getLast?, s2.waiting.head? with
      | some lp, some np =>
        if |lp.rect.right - np.rect.left| > c.pipeSpacing then s2.moveNextPipe else s2
      | _, _ => s2) := by
    cases hgl : s2.moving.getLast? with
    | none =>
      cases hhd : s2.waiting.head? with
      | none => exact h2
      | some np => exact h2
    | some lp =>
      cases hhd : s2.waiting.head? with
      | none => exact h2
      | some np =>
        show SpawnerInv c (if |lp.rect.right - np.rect.left| > c.pipeSpacing
          then s2.moveNextPipe else s2)
        by_cases hc : |lp.rect.right - np.rect.left| > c.pipeSpacing
        · rw [if_pos hc]
          exact moveNext_inv c s2 h2
        · rw [if_neg hc]
          exact h2
  exact advance_inv c dt hdt hv hwid hscr _ h3

theorem spawnerUpdate_length (c : Config) (gaps : List ℤ) (dt : ℚ) (s : Spawner)
    (hw : ∀ p ∈ s.waiting, p.rect.x = c.screenW ∧ p.rect.w = c.pipeImgW)
    (hwid : 0 ≤ c.pipeImgW) (hsp : c.pipeImgW ≤ c.pipeSpacing) :
    (Spawner.update c gaps dt s).moving.length ≤ s.moving.length + 1 := by
  have hw1 := topUp_waiting_mem c (fun p => p.rect.x = c.screenW ∧ p.rect.w = c.pipeImgW)
    (fun gb => by simp [mkPipe]) gaps s hw
  have hm1 := topUp_moving c gaps s
  simp only [Spawner.update]
  rw [List.length_map]
  set s1 := Spawner.topUp c gaps s with hs1
  by_cases h0 : s1.moving.length = 0
  · have hmov : s1.moving = [] := List.length_eq_zero.mp h0
    rw [if_pos h0]
    cases hwl : s1.waiting with
    | nil =>
      have hid : s1.moveNextPipe = s1 := by
        simp [Spawner.moveNextPipe, hwl]
      rw [hid]
      simp [hmov]
    | cons p rest =>
      have hmove : s1.moveNextPipe =
          { waiting := rest, moving := s1.moving ++ [{ p with is_moving := true }] } := by
        simp [Spawner.moveNextPipe, hwl]
      rw [hmove, hmov]
      simp only [List.nil_append]
      cases rest with
      | nil => simp
      | cons q rest2 =>
        have hp := hw1 p (by rw [hwl]; exact List.mem_cons_self p (q :: rest2))
        have hq := hw1 q
          (by rw [hwl]; exact List.mem_cons_of_mem p (List.mem_cons_self q rest2))
        have hcond : ¬ (|({ p with is_moving := true } : Pipe).rect.right - q.rect.left| >
            c.pipeSpacing) := by
          show ¬ (|p.rect.right - q.rect.left| > c.pipeSpacing)
          rw [Rect.right, Rect.left, hp.1, hp.2, hq.1]
          have he : c.screenW + c.pipeImgW - c.screenW = c.pipeImgW := by ring
          rw [he, abs_of_nonneg hwid]
          omega
        simp only [List.getLast?_singleton, List.head?_cons]
        rw [if_neg hcond]
        simp
  · rw [if_neg h0]
    have hlen : s1.moving.length = s.moving.length := by rw [hm1]
    cases hgl : s1.moving.getLast? with
    | none =>
      cases hhd : s1.waiting.head? with
      | none =>
        show s1.moving.length ≤ s.moving.length + 1
        omega
      | some np =>
        show s1.moving.length ≤ s.moving.length + 1
        omega
    | some lp =>
      cases hhd : s1.waiting.head? with
      | none =>
        show s1.moving.length ≤ s.moving.length + 1
        omega
      | some np =>
        show (if |lp.rect.right - np.rect.left| > c.pipeSpacing then s1.moveNextPipe
          else s1).moving.length ≤ s.moving.length + 1
        by_cases hc : |lp.rect.right - np.rect.left| > c.pipeSpacing
        · rw [if_pos hc]
          simp only [Spawner.moveNextPipe]
          split
          · omega
          · simp [List.length_append]
            omega
        · rw [if_neg hc]
          omega

/--
C8 as stated is false in its ordering part: pipes that were `kill()`ed
off screen stay in the `moving_pipes` deque but stop being updated, so a
still-grouped pipe behind them can be carried past their frozen position
in one movement step.  Here `zombieA` (front of the deque, frozen at
`x = -102`) ends up right of `pipeB` (second in the deque, moved to
`x = -120.4`), so front-to-back order no longer equals left-to-right
screen order on the active deque.
-/
theorem C8_order_counterexample :
    ((Spawner.update cfg0 [] (1/10) spawnerOrd).moving.map Pipe.x =
      [-102, -602/5, 1087/2]) ∧
    ¬ xOrdered ((Spawner.update cfg0 [] (1/10) spawnerOrd).moving) := by
  have hmap : (Spawner.update cfg0 [] (1/10) spawnerOrd).moving.map Pipe.x =
      [-102, -602/5, 1087/2] := by
    norm_num [Spawner.update, Spawner.topUp, Spawner.moveNextPipe, Pipe.update, spawnerOrd,
      zombieA, pipeB, mkPipe, cfg0, Config.pipeSpacing, Config.pipeVelX, Config.pipeGapHeight,
      pyInt, Rect.right, Rect.left]
  refine ⟨hmap, fun hord => ?_⟩
  have h2 : ((Spawner.update cfg0 [] (1/10) spawnerOrd).moving.map Pipe.x).Pairwise (· ≤ ·) :=
    List.pairwise_map.mpr hord
  rw [hmap, List.pairwise_cons] at h2
  have h3 := h2.1 (-602/5) (by simp)
  norm_num at h3

/--
C8 amended: during one spawner tick at most one obstacle is activated
(given the session's pipe width does not exceed the spacing threshold, as
holds for the shipped assets: 101 ≤ 236), the queued FIFO is topped up to
its capacity of two, and activation is strictly FIFO with front-to-back
order equal to left-to-right screen order among the obstacles still in
the sprite group — culled obstacles linger inertly in the deque and may
fall out of order there.
-/
theorem C8_spawner_invariants (c : Config) (gaps : List ℤ) (dt : ℚ) (s : Spawner)
    (hinv : SpawnerInv c s) (hdt : 0 ≤ dt) (hv : c.pipeVelX ≤ 0) (hwid : 0 ≤ c.pipeImgW)
    (hscr : 0 ≤ c.screenW) (hsp : c.pipeImgW ≤ c.pipeSpacing)
    (h2 : s.waiting.length ≤ 2) (hg : 2 ≤ s.waiting.length + gaps.length) :
    ((Spawner.update c gaps dt s).moving.length ≤ s.moving.length + 1) ∧
    ((Spawner.topUp c gaps s).waiting.length = 2) ∧
    SpawnerInv c (Spawner.update c gaps dt s) := by
  refine ⟨?_, topUp_length c gaps s h2 hg,
    spawnerUpdate_inv c gaps dt s hinv hdt hv hwid hscr⟩
  exact spawnerUpdate_length c gaps dt s
    (fun p hp => ⟨(hinv.1 p hp).2.1, (hinv.1 p hp).2.2.1⟩) hwid hsp

theorem C8_spawner_invariants_witness :
    ((Spawner.update cfg0 [300, 350] (1/35) { waiting := [], moving := [] }).moving.length ≤
      ({ waiting := [], moving := [] } : Spawner).moving.length + 1) ∧
    ((Spawner.topUp cfg0 [300, 350] { waiting := [], moving := [] }).waiting.length = 2) ∧
    SpawnerInv cfg0 (Spawner.update cfg0 [300, 350] (1/35) { waiting := [], moving := [] }) := by
  refine C8_spawner_invariants cfg0 [300, 350] (1/35) { waiting := [], moving := [] }
    ?_ ?_ ?_ ?_ ?_ ?_ ?_ ?_
  · exact ⟨by simp, by simp, by simp [xOrdered, inGroupPipes]⟩
  · norm_num
  · norm_num [Config.pipeVelX, cfg0, pyInt]
  · norm_num [cfg0]
  · norm_num [cfg0]
  · norm_num [Config.pipeSpacing, cfg0, pyInt]
  · simp
  · simp

end Flappy
